import Mathlib

/-!
Verification of the EchoLearn voice-assistant pipeline
(`src/main_optimized.py`, `src/assistant/gemma_optimized.py`,
`src/assistant/audio_optimized.py`, `src/assistant/speak_optimized.py`,
`src/assistant/gemma.py`) against its natural-language specification.

Python strings are embedded as `List Char`; Python exceptions raised by
external libraries are supplied as explicit oracle values, and a `try/except`
block in the source becomes a `match` on those values.  Side effects that the
spec talks about (files on disk, calls to the synthesis or generation service)
are tracked explicitly in returned trace records.
-/

namespace EchoLearn

/-- Python strings, embedded as lists of characters. -/
abbrev Str := List Char

/-- The apostrophe character (used inside user-facing messages). -/
def apos : Char := Char.ofNat 39

/-- Python `str.isspace` on the whitespace characters relevant to
`str.strip()` with no argument: space, tab, newline, carriage return,
vertical tab, form feed. -/
def pyIsSpace (c : Char) : Bool :=
  (c = ' ') || (c = Char.ofNat 9) || (c = Char.ofNat 10) ||
  (c = Char.ofNat 13) || (c = Char.ofNat 11) || (c = Char.ofNat 12)

/-- Python `s.strip()`: drop leading and trailing whitespace. -/
def strip (s : Str) : Str :=
  ((s.dropWhile pyIsSpace).reverse.dropWhile pyIsSpace).reverse

/-- The non-whitespace characters of a string, in order. -/
def filterNW (s : Str) : Str := s.filter (fun c => !(pyIsSpace c))

/-- Sentence-terminating characters checked by the streaming code:
`[".", "!", "?"]`. -/
def isSentenceEnd (c : Char) : Bool := (c = '.') || (c = '!') || (c = '?')

/-- Python `any(p in buffer for p in [".", "!", "?"])`. -/
def hasSentenceEnd (s : Str) : Bool := s.any isSentenceEnd

/- ------------------------------------------------------------------ -/
/- `GemmaClient._build_prompt` (gemma_optimized.py lines 118-134)      -/
/- ------------------------------------------------------------------ -/

/-- `max_context_length = 4000` in `_build_prompt`. -/
def maxContextLength : Nat := 4000

/-- Fixed text of the prompt template before `{context}`. -/
def promptHeader : Str :=
  ("You are a helpful study assistant. Use the following textbook context to answer the question concisely and accurately.\n\nContext:\n").data

/-- Fixed text of the prompt template between `{context}` and `{question}`. -/
def promptMid : Str := ("\n\nQuestion:\n").data

/-- Fixed text of the prompt template after `{question}`. -/
def promptTail : Str := ("\n\nAnswer (be concise and direct):").data

/-- The truncation marker `"..."` appended to an over-long context. -/
def truncMarker : Str := ("...").data

/-- `GemmaClient._build_prompt`: truncate `context` to 4000 characters
(appending `"..."`) when it is longer, then interpolate the template. -/
def buildPrompt (question context : Str) : Str :=
  let ctx :=
    if maxContextLength < context.length then
      context.take maxContextLength ++ truncMarker
    else context
  promptHeader ++ ctx ++ promptMid ++ question ++ promptTail

/-- Claim C3: a context of at most 4000 characters is embedded unchanged in
the prompt; a longer context contributes exactly its first 4000 characters
followed by the truncation marker `"..."`. -/
theorem C3_buildPrompt_bounded_context (question context : Str) :
    (context.length ≤ maxContextLength →
      buildPrompt question context =
        promptHeader ++ context ++ promptMid ++ question ++ promptTail) ∧
    (maxContextLength < context.length →
      buildPrompt question context =
        promptHeader ++ (context.take maxContextLength ++ truncMarker) ++
          promptMid ++ question ++ promptTail ∧
      (context.take maxContextLength).length = maxContextLength) := by
  constructor
  · intro h
    have : ¬ maxContextLength < context.length := not_lt.mpr h
    simp [buildPrompt, this]
  · intro h
    refine ⟨by simp [buildPrompt, h], ?_⟩
    simp [List.length_take]
    omega

/-- Witness for C3: both branches exercised on concrete contexts of lengths
10 and 4001. -/
theorem C3_buildPrompt_bounded_context_witness :
    (buildPrompt ("Q?").data (List.replicate 10 'a') =
        promptHeader ++ List.replicate 10 'a' ++ promptMid ++ ("Q?").data ++
          promptTail) ∧
    (buildPrompt ("Q?").data (List.replicate 4001 'a') =
        promptHeader ++ (List.replicate 4000 'a' ++ truncMarker) ++ promptMid ++
          ("Q?").data ++ promptTail) := by
  constructor
  · exact (C3_buildPrompt_bounded_context ("Q?").data
      (List.replicate 10 'a')).1
      (by rw [List.length_replicate]; norm_num [maxContextLength])
  · have h := (C3_buildPrompt_bounded_context ("Q?").data
      (List.replicate 4001 'a')).2
      (by rw [List.length_replicate]; norm_num [maxContextLength])
    have ht : (List.replicate 4001 'a').take maxContextLength =
        List.replicate 4000 'a' := by
      rw [List.take_replicate]; norm_num [maxContextLength]
    rw [h.1, ht]

/- ------------------------------------------------------------------ -/
/- `GemmaClient._generate_response` (gemma_optimized.py lines 80-116)  -/
/- ------------------------------------------------------------------ -/

/-- Loop state of `_generate_response`: `full_response`, `buffer`, and the
sentence chunks passed to `stream_callback` so far. -/
structure GenState where
  full : Str
  buf : Str
  chunks : List Str
deriving DecidableEq

/-- One iteration of the `async for chunk in response_stream` loop of
`_generate_response`, with a `stream_callback` present: skip empty tokens,
append the token to `full_response` and `buffer`, and when the buffer
contains a sentence terminator flush `buffer.strip()` (if non-empty) as a
chunk and reset the buffer. -/
def genStep (s : GenState) (tok : Str) : GenState :=
  if tok = [] then s
  else
    let full := s.full ++ tok
    let buf := s.buf ++ tok
    if hasSentenceEnd buf then
      let sentence := strip buf
      { full := full, buf := [],
        chunks := if sentence = [] then s.chunks else s.chunks ++ [sentence] }
    else { full := full, buf := buf, chunks := s.chunks }

/-- The chunks emitted during the token loop (before the final flush). -/
def streamChunks (tokens : List Str) : List Str :=
  (tokens.foldl genStep ⟨[], [], []⟩).chunks

/-- `_generate_response` over a whole token stream, with a `stream_callback`:
returns `full_response.strip()` together with the list of chunks passed to
the callback (including the final flush of a non-empty buffer remainder). -/
def generateResponse (tokens : List Str) : Str × List Str :=
  let s := tokens.foldl genStep ⟨[], [], []⟩
  let chunks := if strip s.buf = [] then s.chunks else s.chunks ++ [strip s.buf]
  (strip s.full, chunks)

/-- Dropping a whitespace prefix does not change the non-whitespace
characters. -/
theorem filterNW_dropWhile (s : Str) :
    filterNW (s.dropWhile pyIsSpace) = filterNW s := by
  induction s with
  | nil => rfl
  | cons c cs ih =>
    by_cases h : pyIsSpace c
    · simpa [filterNW, List.dropWhile, h] using ih
    · simp [filterNW, List.dropWhile, h]

/-- `filter` commutes with `reverse`, specialised to non-whitespace. -/
theorem filterNW_reverse (s : Str) :
    filterNW s.reverse = (filterNW s).reverse := by
  simp [filterNW, List.filter_reverse]

/-- `strip` does not change the non-whitespace characters. -/
theorem filterNW_strip (s : Str) : filterNW (strip s) = filterNW s := by
  unfold strip
  rw [filterNW_reverse, filterNW_dropWhile, filterNW_reverse,
    List.reverse_reverse, filterNW_dropWhile]

/-- A string whose `strip` is empty has no non-whitespace characters. -/
theorem filterNW_of_strip_nil (s : Str) (h : strip s = []) :
    filterNW s = [] := by
  rw [← filterNW_strip, h]; rfl

/-- `filterNW` distributes over concatenation. -/
theorem filterNW_append (s t : Str) :
    filterNW (s ++ t) = filterNW s ++ filterNW t := by
  simp [filterNW]

/-- One loop iteration of `_generate_response`: the accumulator gains
exactly the token, the non-whitespace characters of chunks-plus-buffer gain
exactly those of the token, and the chunk list only grows by appending. -/
theorem genStep_spec (s : GenState) (t : Str) :
    (genStep s t).full = s.full ++ t ∧
    filterNW (genStep s t).chunks.flatten ++ filterNW (genStep s t).buf =
      filterNW s.chunks.flatten ++ filterNW s.buf ++ filterNW t ∧
    ∃ e, (genStep s t).chunks = s.chunks ++ e := by
  unfold genStep
  by_cases ht : t = []
  · simp [ht, filterNW]
  · simp only [ht, if_false]
    by_cases he : hasSentenceEnd (s.buf ++ t)
    · simp only [he, if_true]
      by_cases hs : strip (s.buf ++ t) = []
      · have h0 : filterNW (s.buf ++ t) = [] := filterNW_of_strip_nil _ hs
        rw [filterNW_append] at h0
        obtain ⟨h1, h2⟩ := List.append_eq_nil.mp h0
        simp only [hs, if_true]
        refine ⟨by simp, ?_, ⟨[], by simp⟩⟩
        rw [h1, h2]
        simp [filterNW]
      · simp only [hs, if_false]
        refine ⟨by simp, ?_, ⟨[strip (s.buf ++ t)], rfl⟩⟩
        rw [List.flatten_append, List.flatten_cons, List.flatten_nil,
          List.append_nil, filterNW_append, filterNW_strip, filterNW_append]
        simp [filterNW, List.append_assoc]
    · simp only [he, if_false]
      exact ⟨by simp, by simp [filterNW_append, List.append_assoc],
        ⟨[], by simp⟩⟩

/-- Invariant of the whole token loop of `_generate_response`: the
`full_response` accumulator is exactly the concatenation of the tokens, the
non-whitespace characters of the emitted chunks plus the pending buffer
account exactly for those of everything consumed, and chunks already emitted
are only ever appended to. -/
theorem genStep_fold_spec (tokens : List Str) :
    ∀ s : GenState,
      (tokens.foldl genStep s).full = s.full ++ tokens.flatten ∧
      filterNW (tokens.foldl genStep s).chunks.flatten ++
          filterNW (tokens.foldl genStep s).buf =
        filterNW s.chunks.flatten ++ filterNW s.buf ++
          filterNW tokens.flatten ∧
      ∃ ext, (tokens.foldl genStep s).chunks = s.chunks ++ ext := by
  induction tokens with
  | nil => intro s; exact ⟨by simp, by simp [filterNW], ⟨[], by simp⟩⟩
  | cons t ts ih =>
    intro s
    obtain ⟨hf1, hc1, e1, he1⟩ := genStep_spec s t
    obtain ⟨hf2, hc2, e2, he2⟩ := ih (genStep s t)
    rw [List.foldl_cons]
    refine ⟨?_, ?_, ?_⟩
    · rw [hf2, hf1, List.flatten_cons, List.append_assoc]
    · rw [hc2, hc1, List.flatten_cons, filterNW_append]
      simp [List.append_assoc]
    · exact ⟨e1 ++ e2, by rw [he2, he1, List.append_assoc]⟩

/-- Claim C1 (counterexample): on the token stream `["Hi. ", "Yo."]` the
concatenation of the emitted chunks is `"Hi.Yo."` while the returned answer
is `"Hi. Yo."` — the space at the chunk boundary is lost by `strip()`, so
the concatenation does not equal the full answer exactly. -/
theorem C1_concat_exact_counterexample :
    (generateResponse [("Hi. ").data, ("Yo.").data]).2.flatten ≠
      (generateResponse [("Hi. ").data, ("Yo.").data]).1 := by
  decide

/-- Claim C1 (amended): for every token stream, the concatenation of all
SentenceChunks passed to the callback agrees with the full generated answer
on all non-whitespace characters, in order (only whitespace at chunk
boundaries is trimmed away by `strip()`), and a chunk once flushed is never
re-emitted: the chunk list already emitted is preserved as a prefix as more
tokens arrive. -/
theorem C1_chunks_cover_answer :
    (∀ tokens : List Str,
      filterNW (generateResponse tokens).2.flatten =
        filterNW (generateResponse tokens).1) ∧
    (∀ t1 t2 : List Str, ∃ ext,
      streamChunks (t1 ++ t2) = streamChunks t1 ++ ext) := by
  constructor
  · intro tokens
    obtain ⟨hfull, hinv, -⟩ := genStep_fold_spec tokens ⟨[], [], []⟩
    unfold generateResponse
    set s := tokens.foldl genStep ⟨[], [], []⟩ with hsdef
    have hinv2 : filterNW s.chunks.flatten ++ filterNW s.buf =
        filterNW tokens.flatten := by
      rw [hinv]; simp [filterNW]
    have hfull2 : filterNW (strip s.full) = filterNW tokens.flatten := by
      rw [filterNW_strip, hfull]; simp [filterNW]
    by_cases hb : strip s.buf = []
    · have h0 : filterNW s.buf = [] := filterNW_of_strip_nil _ hb
      simp only [hb, if_true]
      rw [hfull2, ← hinv2, h0, List.append_nil]
    · simp only [hb, if_false]
      rw [List.flatten_append, List.flatten_cons, List.flatten_nil,
        List.append_nil, filterNW_append, filterNW_strip, hfull2, hinv2]
  · intro t1 t2
    unfold streamChunks
    rw [List.foldl_append]
    exact (genStep_fold_spec t2 _).2.2

/- ------------------------------------------------------------------ -/
/- `GemmaClient.ask_question_async` (gemma_optimized.py lines 25-78)   -/
/- ------------------------------------------------------------------ -/

/-- `self.max_retries = 3`. -/
def maxRetries : Nat := 3

/-- `self.retry_delay = 1.0` (seconds). -/
def retryDelay : ℚ := 1

/-- Outcome of one awaited `_generate_response` call at the service
boundary: normal completion with the response string, `asyncio.TimeoutError`
from `asyncio.wait_for`, or any other exception with message `str(e)`. -/
inductive GemmaOutcome where
  | ok (response : Str)
  | timeout
  | exnMsg (e : Str)
deriving DecidableEq

/-- The literal message returned after the last timed-out attempt. -/
def timeoutMsg : Str :=
  ("I").data ++ [apos] ++
    ("m sorry, the request timed out. Please try again.").data

/-- The literal message `f"I…m sorry, I encountered an error: {str(e)}"`
returned after the last attempt that raised a non-timeout exception. -/
def genErrorMsg (e : Str) : Str :=
  ("I").data ++ [apos] ++ ("m sorry, I encountered an error: ").data ++ e

/-- The `for attempt in range(self.max_retries)` loop of
`ask_question_async`, consuming one service-call outcome per attempt.
Returns the string the method returns, the number of attempts made at the
service-call boundary, and the number of `asyncio.sleep(self.retry_delay)`
backoff delays performed.  A non-empty response returns immediately; an
empty response falls through to the next attempt with no delay; a timeout or
other exception retries after a delay unless it was the last attempt, in
which case the corresponding message is returned; an exhausted loop returns
`""`. -/
def runAttempts : List GemmaOutcome → Nat → Nat → Str × Nat × Nat
  | [], _made, slept => ([], _made, slept)
  | o :: rest, made, slept =>
    match o with
    | GemmaOutcome.ok response =>
      if response = [] then runAttempts rest (made + 1) slept
      else (response, made + 1, slept)
    | GemmaOutcome.timeout =>
      if rest = [] then (timeoutMsg, made + 1, slept)
      else runAttempts rest (made + 1) (slept + 1)
    | GemmaOutcome.exnMsg e =>
      if rest = [] then (genErrorMsg e, made + 1, slept)
      else runAttempts rest (made + 1) (slept + 1)

/-- `ask_question_async`: run the retry loop over the first `max_retries`
service-call outcomes. -/
def askQuestionAsync (outcomes : Nat → GemmaOutcome) : Str × Nat × Nat :=
  runAttempts ((List.range maxRetries).map outcomes) 0 0

/- ------------------------------------------------------------------ -/
/- `EchoLearnAssistant.process_question_async`                         -/
/- (main_optimized.py lines 40-113)                                    -/
/- ------------------------------------------------------------------ -/

/-- External-collaborator oracle for one run of `process_question_async`:
the recorded audio file (or `None` on recording failure), the transcription
returned for it, and the per-attempt outcomes of the generation service. -/
structure PipelineOracle where
  recordResult : Option Str
  transcription : Str
  gemma : Nat → GemmaOutcome

/-- The `result` dict built by `process_question_async` (timing omitted). -/
structure PResult where
  success : Bool
  question : Str
  answer : Str
  errors : List Str
deriving DecidableEq

/-- Observable external calls made during one run: attempts at the
generation-service boundary, backoff sleeps, and the texts passed to
`speak_async`. -/
structure PTrace where
  gemmaCalls : Nat
  gemmaSleeps : Nat
  speakCalls : List Str
deriving DecidableEq

/-- `process_question_async`: record, transcribe, validate the question
(`if not question or len(question.strip()) < 3`), ask Gemma (no streaming
callback at this call site), validate the answer (`if not answer`), then
narrate the answer with `speak_async` and mark success. -/
def processQuestionAsync (o : PipelineOracle) : PResult × PTrace :=
  match o.recordResult with
  | none =>
    ({ success := false, question := [], answer := [],
       errors := [("Failed to record audio").data] }, ⟨0, 0, []⟩)
  | some _file =>
    let question := o.transcription
    if question = [] ∨ (strip question).length < 3 then
      ({ success := false, question := question, answer := [],
         errors := [("No valid question transcribed").data] }, ⟨0, 0, []⟩)
    else
      let r := askQuestionAsync o.gemma
      if r.1 = [] then
        ({ success := false, question := question, answer := r.1,
           errors := [("No answer received from Gemma").data] },
         ⟨r.2.1, r.2.2, []⟩)
      else
        ({ success := true, question := question, answer := r.1,
           errors := [] }, ⟨r.2.1, r.2.2, [r.1]⟩)

/-- Claim C2 (counterexample): when every service call times out, the
pipeline receives the timeout message as a normal (non-empty) answer and
therefore DOES invoke narration with it — `speak_async` is called, contrary
to the claim that narration is not invoked. -/
theorem C2_no_narration_counterexample :
    (processQuestionAsync
        ⟨some ("/tmp/q.wav").data, ("What is photosynthesis?").data,
          fun _ => GemmaOutcome.timeout⟩).2.speakCalls = [timeoutMsg] ∧
    [timeoutMsg] ≠ ([] : List Str) := by
  constructor
  · rfl
  · simp [timeoutMsg]

/-- Claim C2 (amended): if every service call times out and the question is
valid, `ask_question_async` makes exactly `max_retries = 3` attempts at the
service-call boundary with a `retry_delay = 1.0`-second sleep between
consecutive attempts (2 sleeps), and returns the message
`"I…m sorry, the request timed out. Please try again."` as a normal result,
not an exception; the pipeline then treats this message as the answer,
reports success, and invokes narration with it. -/
theorem C2_timeout_retries (o : PipelineOracle) (f : Str)
    (hrec : o.recordResult = some f)
    (hq : ¬(o.transcription = [] ∨ (strip o.transcription).length < 3))
    (ht : ∀ i, o.gemma i = GemmaOutcome.timeout) :
    askQuestionAsync o.gemma = (timeoutMsg, maxRetries, 2) ∧
    retryDelay = 1 ∧
    (processQuestionAsync o).1.answer = timeoutMsg ∧
    (processQuestionAsync o).1.success = true ∧
    (processQuestionAsync o).2.gemmaCalls = maxRetries ∧
    (processQuestionAsync o).2.gemmaSleeps = 2 ∧
    (processQuestionAsync o).2.speakCalls = [timeoutMsg] := by
  have hmap : (List.range maxRetries).map o.gemma =
      [GemmaOutcome.timeout, GemmaOutcome.timeout, GemmaOutcome.timeout] := by
    have : List.range maxRetries = [0, 1, 2] := by rfl
    rw [this]
    simp [ht]
  have hask : askQuestionAsync o.gemma = (timeoutMsg, maxRetries, 2) := by
    unfold askQuestionAsync
    rw [hmap]
    rfl
  have hmsg : timeoutMsg ≠ [] := by simp [timeoutMsg]
  refine ⟨hask, rfl, ?_, ?_, ?_, ?_, ?_⟩ <;>
    simp [processQuestionAsync, hrec, hq, hask, hmsg, maxRetries]

/-- Witness for C2: a concrete oracle in which every service call times
out. -/
theorem C2_timeout_retries_witness :
    (processQuestionAsync
        ⟨some ("/tmp/q2.wav").data, ("Define entropy.").data,
          fun _ => GemmaOutcome.timeout⟩).1.answer = timeoutMsg ∧
    (processQuestionAsync
        ⟨some ("/tmp/q2.wav").data, ("Define entropy.").data,
          fun _ => GemmaOutcome.timeout⟩).2.gemmaCalls = maxRetries := by
  have h := C2_timeout_retries
    ⟨some ("/tmp/q2.wav").data, ("Define entropy.").data,
      fun _ => GemmaOutcome.timeout⟩
    ("/tmp/q2.wav").data rfl (by decide) (fun _ => rfl)
  exact ⟨h.2.2.1, h.2.2.2.2.1⟩

/-- Claim C5: whenever transcription yields an empty or whitespace-only
question, the pipeline returns `success = false` with the error
`"No valid question transcribed"`, and the generation service is never
invoked. -/
theorem C5_invalid_question_skips_gemma (o : PipelineOracle) (f : Str)
    (hrec : o.recordResult = some f)
    (hq : strip o.transcription = []) :
    (processQuestionAsync o).1.success = false ∧
    ("No valid question transcribed").data ∈
      (processQuestionAsync o).1.errors ∧
    (processQuestionAsync o).2.gemmaCalls = 0 ∧
    (processQuestionAsync o).2.speakCalls = [] := by
  have hlen : o.transcription = [] ∨ (strip o.transcription).length < 3 :=
    Or.inr (by rw [hq]; decide)
  simp [processQuestionAsync, hrec, hlen]

/-- Witness for C5: a whitespace-only transcription. -/
theorem C5_invalid_question_skips_gemma_witness :
    (processQuestionAsync
        ⟨some ("/tmp/q3.wav").data, ("   ").data,
          fun _ => GemmaOutcome.ok ("unused").data⟩).2.gemmaCalls = 0 :=
  (C5_invalid_question_skips_gemma
    ⟨some ("/tmp/q3.wav").data, ("   ").data,
      fun _ => GemmaOutcome.ok ("unused").data⟩
    ("/tmp/q3.wav").data rfl (by decide)).2.2.1

/-- Claim C10: if every attempt completes normally with an empty response,
the retry loop exhausts all 3 attempts with no backoff sleeps and returns
`""` — neither an answer nor a tagged failure message — and the pipeline
then records `"No answer received from Gemma"` and skips narration. -/
theorem C10_empty_response_exhausts (o : PipelineOracle) (f : Str)
    (hrec : o.recordResult = some f)
    (hq : ¬(o.transcription = [] ∨ (strip o.transcription).length < 3))
    (hg : ∀ i, o.gemma i = GemmaOutcome.ok []) :
    askQuestionAsync o.gemma = ([], maxRetries, 0) ∧
    (processQuestionAsync o).1.answer = [] ∧
    (processQuestionAsync o).1.success = false ∧
    (processQuestionAsync o).1.errors =
      [("No answer received from Gemma").data] ∧
    (processQuestionAsync o).2.gemmaCalls = maxRetries ∧
    (processQuestionAsync o).2.gemmaSleeps = 0 ∧
    (processQuestionAsync o).2.speakCalls = [] := by
  have hmap : (List.range maxRetries).map o.gemma =
      [GemmaOutcome.ok [], GemmaOutcome.ok [], GemmaOutcome.ok []] := by
    have : List.range maxRetries = [0, 1, 2] := by rfl
    rw [this]
    simp [hg]
  have hask : askQuestionAsync o.gemma = ([], maxRetries, 0) := by
    unfold askQuestionAsync
    rw [hmap]
    rfl
  refine ⟨hask, ?_, ?_, ?_, ?_, ?_, ?_⟩ <;>
    simp [processQuestionAsync, hrec, hq, hask, maxRetries]

/-- Witness for C10: a concrete oracle whose every attempt returns an empty
response. -/
theorem C10_empty_response_exhausts_witness :
    (processQuestionAsync
        ⟨some ("/tmp/q4.wav").data, ("What is a monad?").data,
          fun _ => GemmaOutcome.ok []⟩).1.errors =
      [("No answer received from Gemma").data] :=
  (C10_empty_response_exhausts
    ⟨some ("/tmp/q4.wav").data, ("What is a monad?").data,
      fun _ => GemmaOutcome.ok []⟩
    ("/tmp/q4.wav").data rfl (by decide) (fun _ => rfl)).2.2.2.1

/- ------------------------------------------------------------------ -/
/- `AudioProcessor.transcribe_audio_async`                             -/
/- (audio_optimized.py lines 103-145)                                  -/
/- ------------------------------------------------------------------ -/

/-- Python `path.startswith(pre)`. -/
def strStartsWith (pre s : Str) : Bool := pre.isPrefixOf s

/-- Outcome of the awaited `_transcribe_sync` executor call: an exception
raised out of the await, or a returned value — `None` (its own except
branch) or a result whose `"text"` field is the given string. -/
inductive TransOutcome where
  | raise (e : Str)
  | done (r : Option Str)
deriving DecidableEq

/-- `transcribe_audio_async` over an explicit file-system state `fs` (the
list of existing paths).  Inside the `try`: a missing file returns `""`; an
exception from the executor is caught and returns `""`; a `None` result
returns `""`; otherwise `result.get("text", "").strip()` is returned.  The
`finally` block removes the file only when it exists AND its path starts
with `tempfile.gettempdir()` (modelled by the `tmpdir` argument).  Returns
(transcription, file system afterwards, whether `os.remove` was called). -/
def transcribeAudioAsync (tmpdir : Str) (fs : List Str) (audioFile : Str)
    (outcome : TransOutcome) : Str × List Str × Bool :=
  let onDisk := fs.contains audioFile
  let ret : Str :=
    if onDisk = false then []
    else
      match outcome with
      | TransOutcome.raise _ => []
      | TransOutcome.done none => []
      | TransOutcome.done (some text) => strip text
  let removeCalled := onDisk && strStartsWith tmpdir audioFile
  let fsAfter := if removeCalled then fs.erase audioFile else fs
  (ret, fsAfter, removeCalled)

/-- Claim C4 (counterexample): for an existing input file outside the
temporary directory, `transcribe_audio_async` returns (successfully) without
ever calling `os.remove` — the cleanup is guarded by
`audio_file.startswith(tempfile.gettempdir())`, so not every input sample
path is deleted. -/
theorem C4_always_delete_counterexample :
    (transcribeAudioAsync ("/tmp").data [("/home/user/question.wav").data]
        ("/home/user/question.wav").data
        (TransOutcome.done (some ("hello world.").data))).2.2 = false ∧
    (transcribeAudioAsync ("/tmp").data [("/home/user/question.wav").data]
        ("/home/user/question.wav").data
        (TransOutcome.done (some ("hello world.").data))).2.1 =
      [("/home/user/question.wav").data] := by
  decide

/-- Claim C4 (amended): for every input sample path that exists and lies
under the temporary directory — in particular every file that
`record_audio_async` creates via `tempfile.NamedTemporaryFile` when given no
filename — deletion is attempted on every outcome of transcription
(success, empty result, or internal error), so no such audio file outlives
the interaction.  Paths outside the temporary directory are not deleted. -/
theorem C4_temp_file_deleted (tmpdir : Str) (fs : List Str) (audioFile : Str)
    (outcome : TransOutcome)
    (hex : fs.contains audioFile = true)
    (htmp : strStartsWith tmpdir audioFile = true) :
    (transcribeAudioAsync tmpdir fs audioFile outcome).2.2 = true ∧
    (transcribeAudioAsync tmpdir fs audioFile outcome).2.1 =
      fs.erase audioFile := by
  unfold transcribeAudioAsync
  have hmem : audioFile ∈ fs := by simpa using hex
  simp [hex, htmp, hmem]

/-- Witness for C4: a concrete temp-directory file, deleted on a successful
transcription outcome. -/
theorem C4_temp_file_deleted_witness :
    (transcribeAudioAsync ("/tmp").data [("/tmp/rec1.wav").data]
        ("/tmp/rec1.wav").data
        (TransOutcome.done (some ("what is a set?").data))).2.2 = true :=
  (C4_temp_file_deleted ("/tmp").data [("/tmp/rec1.wav").data]
    ("/tmp/rec1.wav").data (TransOutcome.done (some ("what is a set?").data))
    (by decide) (by decide)).1

/- ------------------------------------------------------------------ -/
/- `SpeechSynthesizer.speak_async` (speak_optimized.py lines 27-63)    -/
/- ------------------------------------------------------------------ -/

/-- External-collaborator oracle for one `speak_async` call: the temp file
path handed out by `tempfile.NamedTemporaryFile`, whether the synthesis
stream raised (with message), and the `os.system` status code of
playback. -/
structure SpeakOracle where
  tempPath : Str
  synthErr : Option Str
  playStatus : Int

/-- Observable behaviour of one `speak_async` call: the returned boolean,
the number of synthesis calls issued, temp files created, and playback
calls issued. -/
structure SpeakResult where
  success : Bool
  synthCalls : Nat
  tempFilesCreated : List Str
  playCalls : Nat
deriving DecidableEq

/-- `speak_async`: `if not text or not text.strip(): return False` before
doing anything; otherwise `_generate_audio_async` creates a temp file and
streams synthesis into it (an exception is caught there and yields `None`,
making `speak_async` return `False`); then `_play_audio_sync` runs `afplay`
through `os.system` and the call succeeds iff the status code is 0. -/
def speakAsync (text : Str) (o : SpeakOracle) : SpeakResult :=
  if text = [] ∨ strip text = [] then
    { success := false, synthCalls := 0, tempFilesCreated := [],
      playCalls := 0 }
  else
    match o.synthErr with
    | some _ =>
      { success := false, synthCalls := 1,
        tempFilesCreated := [o.tempPath], playCalls := 0 }
    | none =>
      { success := decide (o.playStatus = 0), synthCalls := 1,
        tempFilesCreated := [o.tempPath], playCalls := 1 }

/-- Claim C6: for every empty or whitespace-only text, `speak_async`
returns `False` and performs no synthesis call, creates no file, and issues
no playback. -/
theorem C6_empty_text_noop (text : Str) (o : SpeakOracle)
    (h : strip text = []) :
    speakAsync text o =
      { success := false, synthCalls := 0, tempFilesCreated := [],
        playCalls := 0 } := by
  unfold speakAsync
  simp [h]

/-- Witness for C6: `speak("   ")`. -/
theorem C6_empty_text_noop_witness :
    speakAsync ("   ").data ⟨("/tmp/t1.mp3").data, none, 0⟩ =
      { success := false, synthCalls := 0, tempFilesCreated := [],
        playCalls := 0 } :=
  C6_empty_text_noop ("   ").data ⟨("/tmp/t1.mp3").data, none, 0⟩ (by decide)

/- ------------------------------------------------------------------ -/
/- `SpeechSynthesizer.speak_streaming_async`                           -/
/- (speak_optimized.py lines 138-163)                                  -/
/- ------------------------------------------------------------------ -/

/-- `timeout=1.0` passed to `asyncio.wait_for(text_stream.get(), ...)`. -/
def pollTimeoutSeconds : ℚ := 1

/-- One observable event at the queue in `speak_streaming_async`: either the
1.0-second poll times out with the queue still empty, or an element is
dequeued — `none` being the end-of-stream sentinel. -/
inductive QEvent where
  | timedOut
  | item (chunk : Option Str)
deriving DecidableEq

/-- The chunks actually spoken by the `while True` loop of
`speak_streaming_async`, in order: a poll timeout continues the loop, the
sentinel `None` breaks it, and a dequeued chunk is passed to `speak_async`
(awaited to completion) iff `text_chunk.strip()` is non-empty. -/
def speakStreamingAsync : List QEvent → List Str
  | [] => []
  | QEvent.timedOut :: rest => speakStreamingAsync rest
  | QEvent.item none :: _ => []
  | QEvent.item (some s) :: rest =>
    if (strip s).isEmpty then speakStreamingAsync rest
    else s :: speakStreamingAsync rest

/-- The chunks present in the queue-event sequence before the sentinel. -/
def itemsBeforeEnd : List QEvent → List Str
  | [] => []
  | QEvent.timedOut :: rest => itemsBeforeEnd rest
  | QEvent.item none :: _ => []
  | QEvent.item (some s) :: rest => s :: itemsBeforeEnd rest

/-- An action in the serialized execution trace of the loop: a dequeue
(possibly of the sentinel), a poll timeout, or the start/end of one awaited
`speak_async` call. -/
inductive SAction where
  | dequeue (x : Option Str)
  | pollTimedOut
  | speakStart (s : Str)
  | speakEnd (s : Str)
deriving DecidableEq

/-- Execution trace of the `speak_streaming_async` loop: `speak_async` is
awaited, so its start and end bracket nothing else — in particular no
further dequeue happens while a chunk is being spoken. -/
def streamTrace : List QEvent → List SAction
  | [] => []
  | QEvent.timedOut :: rest => SAction.pollTimedOut :: streamTrace rest
  | QEvent.item none :: _ => [SAction.dequeue none]
  | QEvent.item (some s) :: rest =>
    SAction.dequeue (some s) ::
      (if (strip s).isEmpty then streamTrace rest
       else SAction.speakStart s :: SAction.speakEnd s :: streamTrace rest)

/-- A trace is speech-serialized when every `speakStart s` is immediately
followed by the matching `speakEnd s`: chunks are spoken to completion, one
at a time, with no dequeue or other speech in between. -/
def speechSerialized : List SAction → Bool
  | [] => true
  | SAction.speakStart s :: SAction.speakEnd t :: rest =>
    (s = t) && speechSerialized rest
  | SAction.speakStart _ :: _ => false
  | _ :: rest => speechSerialized rest

/-- The chunks whose speech starts in a trace, in order. -/
def spokenInTrace (tr : List SAction) : List Str :=
  tr.filterMap fun a =>
    match a with
    | SAction.speakStart s => some s
    | _ => none

/-- Claim C7: `speak_streaming_async` polls its queue with a 1.0-second
timeout, stops at the `None` sentinel, and speaks exactly the
nonempty-after-strip chunks dequeued before the sentinel, in generation
(queue) order; its trace is speech-serialized — each chunk is spoken to
completion before the next chunk is dequeued, never reordered or
overlapped. -/
theorem C7_stream_order :
    pollTimeoutSeconds = 1 ∧
    (∀ events : List QEvent,
      speakStreamingAsync events =
        (itemsBeforeEnd events).filter (fun s => !(strip s).isEmpty)) ∧
    (∀ events : List QEvent,
      speechSerialized (streamTrace events) = true) ∧
    (∀ events : List QEvent,
      spokenInTrace (streamTrace events) = speakStreamingAsync events) := by
  refine ⟨rfl, ?_, ?_, ?_⟩
  · intro events
    induction events with
    | nil => rfl
    | cons e rest ih =>
      match e with
      | QEvent.timedOut => simpa [speakStreamingAsync, itemsBeforeEnd] using ih
      | QEvent.item none => rfl
      | QEvent.item (some s) =>
        by_cases h : (strip s).isEmpty <;>
          simp [speakStreamingAsync, itemsBeforeEnd, List.filter_cons, h, ih]
  · intro events
    induction events with
    | nil => rfl
    | cons e rest ih =>
      match e with
      | QEvent.timedOut => simpa [streamTrace, speechSerialized] using ih
      | QEvent.item none => rfl
      | QEvent.item (some s) =>
        by_cases h : (strip s).isEmpty <;>
          simp [streamTrace, speechSerialized, h, ih]
  · intro events
    induction events with
    | nil => rfl
    | cons e rest ih =>
      match e with
      | QEvent.timedOut =>
        simpa [streamTrace, spokenInTrace, speakStreamingAsync] using ih
      | QEvent.item none => rfl
      | QEvent.item (some s) =>
        simp only [spokenInTrace] at ih
        by_cases h : (strip s).isEmpty <;>
          simp [streamTrace, spokenInTrace, speakStreamingAsync, h, ih]

/- ------------------------------------------------------------------ -/
/- Claim C8: error conversion at each component boundary               -/
/- ------------------------------------------------------------------ -/

/-- Claim C8: every external-library failure is caught inside the owning
operation and converted to a typed failure value or empty result, never
re-raised across the component boundary: a raising transcription executor
yields `""` (as does a `None` result), a generation service whose every call
raises yields the error message, one whose every call times out yields the
timeout message — both normal strings — and a raising synthesis stream makes
`speak_async` return `False`. -/
theorem C8_failures_converted :
    (∀ (tmpdir : Str) (fs : List Str) (audioFile e : Str),
      (transcribeAudioAsync tmpdir fs audioFile
        (TransOutcome.raise e)).1 = []) ∧
    (∀ (tmpdir : Str) (fs : List Str) (audioFile : Str),
      (transcribeAudioAsync tmpdir fs audioFile
        (TransOutcome.done none)).1 = []) ∧
    (∀ e : Str,
      (askQuestionAsync (fun _ => GemmaOutcome.exnMsg e)).1 =
        genErrorMsg e) ∧
    ((askQuestionAsync (fun _ => GemmaOutcome.timeout)).1 = timeoutMsg) ∧
    (∀ (text path e : Str) (status : Int),
      (speakAsync text ⟨path, some e, status⟩).success = false) := by
  refine ⟨?_, ?_, fun e => rfl, rfl, ?_⟩
  · intro tmpdir fs audioFile e
    unfold transcribeAudioAsync
    by_cases h : fs.contains audioFile <;> simp [h]
  · intro tmpdir fs audioFile
    unfold transcribeAudioAsync
    by_cases h : fs.contains audioFile <;> simp [h]
  · intro text path e status
    unfold speakAsync
    by_cases h : text = [] ∨ strip text = [] <;> simp [h]

/- ------------------------------------------------------------------ -/
/- Legacy `ask_gemma` (gemma.py lines 6-42) and claim C9               -/
/- ------------------------------------------------------------------ -/

/-- Python `s.replace(old, "")` (deletion of all non-overlapping
occurrences, scanning left to right; an empty pattern deletes nothing),
with explicit fuel bounded by the scanned length. -/
def replaceDelGo (pat : Str) : Nat → Str → Str
  | 0, s => s
  | _ + 1, [] => []
  | fuel + 1, c :: rest =>
    if pat ≠ [] ∧ pat.isPrefixOf (c :: rest) then
      replaceDelGo pat fuel ((c :: rest).drop pat.length)
    else c :: replaceDelGo pat fuel rest

/-- Python `s.replace(pat, "")`. -/
def replaceDel (pat s : Str) : Str := replaceDelGo pat s.length s

/-- Loop state of the legacy `ask_gemma`: the accumulating `buffer`, the
`spoken` accumulator, and the chunks handed to `speak_streamed_text`. -/
structure LegacyState where
  buffer : Str
  spoken : Str
  spokenChunks : List Str
deriving DecidableEq

/-- One iteration of the legacy token loop: append the token to the buffer;
when the buffer contains a sentence terminator, compute
`new_chunk = buffer.strip().replace(spoken, "")`, append it to `spoken`,
speak it, and reset the buffer. -/
def legacyStep (st : LegacyState) (tok : Str) : LegacyState :=
  let buffer := st.buffer ++ tok
  if hasSentenceEnd buffer then
    let newChunk := replaceDel st.spoken (strip buffer)
    { buffer := [], spoken := st.spoken ++ newChunk,
      spokenChunks := st.spokenChunks ++ [newChunk] }
  else { st with buffer := buffer }

/-- Legacy `ask_gemma` over a token stream: returns the final `spoken`
string (the function's return value) and the chunks spoken. -/
def askGemmaLegacy (tokens : List Str) : Str × List Str :=
  let st := tokens.foldl legacyStep ⟨[], [], []⟩
  (st.spoken, st.spokenChunks)

/-- Claim C9: on the token stream `["Hi.", " Hi. Bye."]`, whose second token
repeats the already-spoken text `"Hi."`, the legacy string-replace tracking
deletes the repeat: the legacy spoken output is `"Hi. Bye."` while the full
generated answer (as returned by the corrected streaming design) is
`"Hi. Hi. Bye."` — so the legacy `ask_gemma` is not equivalent to the
corrected design. -/
theorem C9_legacy_replace_bug :
    (askGemmaLegacy [("Hi.").data, (" Hi. Bye.").data]).1 =
      ("Hi. Bye.").data ∧
    (generateResponse [("Hi.").data, (" Hi. Bye.").data]).1 =
      ("Hi. Hi. Bye.").data ∧
    (askGemmaLegacy [("Hi.").data, (" Hi. Bye.").data]).1 ≠
      (generateResponse [("Hi.").data, (" Hi. Bye.").data]).1 := by
  decide

end EchoLearn
